import Mathlib

/-!
Verification of the Yahoo-news/Nissan harvest-classify-merge pipeline
(src/main.py and src/comment_scraper.py) against its specification.

The Python sources are shallowly embedded below.  HTML parsing,
the spreadsheet backend and the LLM service are modelled at their
interface boundary (page contents, store rows, analysis results are
inputs); all control flow, string processing and decision logic is
translated from the source.
-/

namespace YahooNissan

/-- Character-list test that `p` is an initial segment of `s`
(helper for the string primitives below, which are implemented over
character lists so that every proof can be checked by evaluation). -/
def charsStartWith : List Char → List Char → Bool
  | _, [] => true
  | [], _ :: _ => false
  | c :: cs, p :: ps => c == p && charsStartWith cs ps

/-- Character-list test that `p` occurs contiguously inside `s`. -/
def charsContains : List Char → List Char → Bool
  | [], p => p.isEmpty
  | c :: cs, p => charsStartWith (c :: cs) p || charsContains cs p

/-- Substring containment test, the embedding of Python's `pat in s`
for strings. -/
def strContains (s pat : String) : Bool :=
  charsContains s.toList pat.toList

/-- Embedding of Python's `s.startswith(pat)`. -/
def sStartsWith (s pat : String) : Bool :=
  charsStartWith s.toList pat.toList

/-- Embedding of Python's `s.strip()`: whitespace removed on both ends. -/
def sTrim (s : String) : String :=
  String.mk (((s.toList.dropWhile Char.isWhitespace).reverse.dropWhile
      Char.isWhitespace).reverse)

/-- Embedding of Python's `s.lower()`. -/
def sToLower (s : String) : String :=
  String.mk (s.toList.map Char.toLower)

/-- Embeds `int(re.sub(r'\D', '', str(x)))` with the surrounding
`try/except` that falls back to 0 (comment_scraper.py lines 145-149):
keep only digit characters and read them as a number, 0 when none. -/
def cntOf (s : String) : Nat :=
  (s.toList.filter Char.isDigit).foldl (fun a c => a * 10 + (c.toNat - Char.toNat '0')) 0

/-- Embeds Python `max(list, key=len)`: first element of maximal length.
Returns `""` on the empty list (the source never calls it on one). -/
def maxByLen : List String → String
  | [] => ""
  | x :: xs => xs.foldl (fun best t => if best.length < t.length then t else best) x

/-- Fuel-indexed chunking: groups a list into consecutive chunks of 10
(comment_scraper.py lines 94-99).  The fuel is instantiated with the
list's length, which always suffices. -/
def chunksGo : Nat → List String → List (List String)
  | 0, _ => []
  | _, [] => []
  | fuel + 1, xs => xs.take 10 :: chunksGo fuel (xs.drop 10)

/-- Embeds the 10-per-column folding of harvested comments
(comment_scraper.py lines 93-99): each chunk joined with blank lines. -/
def mergedColumns (xs : List String) : List String :=
  (chunksGo xs.length xs).map (fun c => "\n\n".intercalate c)

/-! ## Comment harvesting (`fetch_comments_from_url`, comment_scraper.py lines 39-104) -/

/-- One listed item of a comment page as produced by the HTML parse:
the optional `h2` author text and the stripped texts of its `p` tags. -/
structure CItem where
  author : Option String
  ptexts : List String
deriving DecidableEq, Repr

/-- Outcome of one comment-page request (comment_scraper.py lines 57-61):
a 404 status, any other transport/HTTP failure, or a parsed page. -/
inductive PageResp where
  | notFound : PageResp
  | transport : PageResp
  | ok : List CItem → PageResp

/-- Noise-phrase denylist for comment bodies (comment_scraper.py line 79). -/
def noiseList : List String :=
  ["このコメントを削除しますか", "コメントを削除しました", "違反報告する", "非表示・報告", "投稿を受け付けました"]

/-- Embeds the per-item extraction (comment_scraper.py lines 68-82):
author defaults to `匿名`, the body is the longest paragraph text, an
empty body or a noise phrase drops the item, otherwise the rendered
`【投稿者: name】\n body` identity text is produced. -/
def renderItem (it : CItem) : Option String :=
  let name := it.author.getD "匿名"
  let body := if it.ptexts.isEmpty then "" else maxByLen it.ptexts
  if body = "" then none
  else if noiseList.any (fun x => strContains body x) then none
  else some ("【投稿者: " ++ name ++ "】\n" ++ body)

/-- Embeds the inner item loop (comment_scraper.py lines 67-87): state is
the seen-set, the ordered accumulated list, and `new_cnt`; a rendered
text already seen is skipped, otherwise appended and counted. -/
def procItems : List CItem → List String → List String → Nat →
    List String × List String × Nat
  | [], seen, acc, cnt => (seen, acc, cnt)
  | it :: rest, seen, acc, cnt =>
    match renderItem it with
    | none => procItems rest seen acc cnt
    | some ft =>
      if ft ∈ seen then procItems rest seen acc cnt
      else procItems rest (ft :: seen) (acc ++ [ft]) (cnt + 1)

/-- Embeds the page loop of `fetch_comments_from_url` (comment_scraper.py
lines 55-91).  `pages` maps a page number to its response; each loop
iteration issues exactly one request (counted in the last component).
The source loop is unbounded (`while True`), so a fuel argument bounds
the number of modelled iterations; every termination theorem below
holds for all fuels.  Stops on 404, on any transport failure, on a page
with no parsed items, and when a page contributes zero new items. -/
def commentLoop (pages : Nat → PageResp) :
    Nat → Nat → List String → List String → Nat → List String × Nat
  | 0, _, _, acc, req => (acc, req)
  | fuel + 1, page, seen, acc, req =>
    match pages page with
    | .notFound => (acc, req + 1)
    | .transport => (acc, req + 1)
    | .ok items =>
      if items.isEmpty then (acc, req + 1)
      else
        match procItems items seen acc 0 with
        | (seen2, acc2, ncnt) =>
          if ncnt = 0 then (acc2, req + 1)
          else commentLoop pages fuel (page + 1) seen2 acc2 (req + 1)

/-- Embeds `fetch_comments_from_url` end to end: run the page loop from
page 1, fold the result into 10-wide columns, and also return the full
concatenation handed to the summarizer plus the number of page
requests issued. -/
def fetchCommentsModel (pages : Nat → PageResp) (fuel : Nat) :
    List String × String × Nat :=
  match commentLoop pages fuel 1 [] [] 0 with
  | (acc, req) => (mergedColumns acc, "\n".intercalate acc, req)

theorem procItems_inv (its : List CItem) :
    ∀ (seen acc : List String) (cnt : Nat),
      acc.Nodup → (∀ x ∈ acc, x ∈ seen) →
      ((procItems its seen acc cnt).2.1.Nodup ∧
        ∀ x ∈ (procItems its seen acc cnt).2.1, x ∈ (procItems its seen acc cnt).1) := by
  induction its with
  | nil => intro seen acc cnt h1 h2; exact ⟨h1, h2⟩
  | cons it rest ih =>
    intro seen acc cnt h1 h2
    simp only [procItems]
    cases renderItem it with
    | none => exact ih seen acc cnt h1 h2
    | some ft =>
      by_cases hmem : ft ∈ seen
      · simp only [if_pos hmem]
        exact ih seen acc cnt h1 h2
      · simp only [if_neg hmem]
        apply ih
        · rw [List.nodup_append]
          refine ⟨h1, List.nodup_singleton ft, ?_⟩
          intro a ha hb
          simp only [List.mem_singleton] at hb
          exact hmem (hb ▸ h2 a ha)
        · intro x hx
          rcases List.mem_append.mp hx with hx | hx
          · exact List.mem_cons_of_mem ft (h2 x hx)
          · simp only [List.mem_singleton] at hx
            exact hx ▸ List.mem_cons_self ft seen

theorem commentLoop_nodup (pages : Nat → PageResp) (fuel : Nat) :
    ∀ (page : Nat) (seen acc : List String) (req : Nat),
      acc.Nodup → (∀ x ∈ acc, x ∈ seen) →
      (commentLoop pages fuel page seen acc req).1.Nodup := by
  induction fuel with
  | zero => intro page seen acc req h1 _; exact h1
  | succ fuel ih =>
    intro page seen acc req h1 h2
    simp only [commentLoop]
    cases pages page with
    | notFound => exact h1
    | transport => exact h1
    | ok items =>
      by_cases hempty : items.isEmpty
      · simp only [if_pos hempty]; exact h1
      · simp only [if_neg hempty]
        have hinv := procItems_inv items seen acc 0 h1 h2
        rcases hp : procItems items seen acc 0 with ⟨seen2, acc2, ncnt⟩
        rw [hp] at hinv
        by_cases hn : ncnt = 0
        · simp only [if_pos hn]; exact hinv.1
        · simp only [if_neg hn]
          exact ih (page + 1) seen2 acc2 (req + 1) hinv.1 hinv.2

/-- C4 — within one run of the comment harvester, byte-equal rendered
`【投稿者: name】\n body` texts collapse to a single entry: whatever the
pages return and however long the loop runs, the ordered list of
harvested comment texts contains no duplicate entry. -/
theorem C4_exact_text_dedup (pages : Nat → PageResp) (fuel : Nat) :
    (commentLoop pages fuel 1 [] [] 0).1.Nodup :=
  commentLoop_nodup pages fuel 1 [] [] 0 List.nodup_nil (by intro x hx; cases hx)

/-! ## C5 scenario: pages 1-3 fresh, page 4 all duplicates -/

/-- Scenario item number `n`: anonymous author, a single paragraph. -/
def c5Item (n : Nat) : CItem := ⟨none, ["b" ++ toString n]⟩

/-- Scenario page `k` (0-based): ten consecutive fresh items. -/
def c5Page (k : Nat) : List CItem :=
  (List.range 10).map (fun i => c5Item (10 * k + i))

/-- Scenario page responses: pages 1-3 serve thirty distinct items,
page 4 re-serves page 3's items in reversed order (all duplicates),
later pages would serve fresh items (so an early stop is observable). -/
def c5Pages : Nat → PageResp := fun p =>
  if p = 1 then .ok (c5Page 0)
  else if p = 2 then .ok (c5Page 1)
  else if p = 3 then .ok (c5Page 2)
  else if p = 4 then .ok (c5Page 2).reverse
  else .ok (c5Page (p + 5))

/-- C5 — on the scenario where comment pages 1-3 each yield 10 distinct
items and page 4 yields only already-seen items in permuted order, the
harvester issues exactly 4 page requests (page 5 is never fetched) and
returns the 30 items in first-seen order, folded into exactly 3 chunks
of 10. -/
theorem C5_scenario_stop_after_duplicate_page :
    (commentLoop c5Pages 100 1 [] [] 0).2 = 4 ∧
    (commentLoop c5Pages 100 1 [] [] 0).1 =
      (List.range 30).map (fun n => "【投稿者: 匿名】\n" ++ ("b" ++ toString n)) ∧
    (mergedColumns (commentLoop c5Pages 100 1 [] [] 0).1).length = 3 ∧
    (chunksGo (commentLoop c5Pages 100 1 [] [] 0).1.length
        (commentLoop c5Pages 100 1 [] [] 0).1).all (fun c => c.length = 10) := by
  refine ⟨by decide, by decide, by decide, by decide⟩

/-! ## Comment-collection targeting (`run_comment_collection`, comment_scraper.py lines 141-198) -/

/-- Empty-value sentinels for the entity-negative-text field
(comment_scraper.py line 196). -/
def negSentinels : List String := ["なし", "N/A", "N/A(No Body)", "-"]

/-- Embeds the per-row targeting decision of `run_comment_collection`
(comment_scraper.py lines 180-197): the common precondition requires the
target-company field to start with `日産`, the category field to not
contain `その他`, and a positive comment count; then either the count
reaches 100 or the entity-negative-text field is non-blank after
stripping and not one of the sentinels. -/
def is_comment_collection_target (target_company category nissan_neg_text : String)
    (comment_cnt : Nat) : Bool :=
  if sStartsWith target_company "日産" && !(strContains category "その他")
      && decide (0 < comment_cnt) then
    if 100 ≤ comment_cnt then true
    else
      if sTrim nissan_neg_text != "" && !(negSentinels.contains (sTrim nissan_neg_text))
      then true else false
  else false

/-- Restates claim C3's own wording of the targeting rule, for
comparison with the source's rule: identical except that the category
test is an equality test against the excluded category. -/
def claimCommentTargetRule (target_company category nissan_neg_text : String)
    (comment_cnt : Nat) : Bool :=
  (sStartsWith target_company "日産" && category != "その他" && decide (0 < comment_cnt))
    && (decide (100 ≤ comment_cnt)
      || (sTrim nissan_neg_text != "" && !(negSentinels.contains (sTrim nissan_neg_text))))

/-- Identity key of a store row: its first cell (`row[0]`). -/
def rowKey (r : List String) : String := r.headD ""

/-- Targeting decision on a raw source row, with the field positions
used by the source (comment_scraper.py lines 167-176: indices 7, 8, 11
and the digit-parsed index 5). -/
def isTargetRow (r : List String) : Bool :=
  is_comment_collection_target (r.getD 7 "") (r.getD 8 "") (r.getD 11 "")
    (cntOf (r.getD 5 ""))

/-! ## Store merger: article-list append (`write_news_list_to_source`, main.py lines 506-517) -/

/-- One harvested listing entry as produced by the Selenium harvester
(main.py lines 406-411); its URL is non-empty and starts with the
article prefix whenever the harvester emits it (main.py lines 370, 395). -/
structure NewsArticle where
  url : String
  title : String
  post_date : String
  source : String

/-- Row written for a fresh article (main.py line 511). -/
def articleRowOf (a : NewsArticle) : List String :=
  [a.url, a.title, a.post_date, a.source]

/-- Embeds one call of `write_news_list_to_source` (main.py lines
506-517): collect the keys of existing rows whose first cell starts
with `http`, then append exactly those harvested articles whose URL is
not among them.  The header row is not part of `store` (the source
skips it with `existing_data[1:]`, and appends go below the data). -/
def writeNewsCycle (store : List (List String)) (articles : List NewsArticle) :
    List (List String) :=
  let existing := (store.filter
      (fun r => !r.isEmpty && sStartsWith (rowKey r) "http")).map rowKey
  store ++ (articles.filter (fun a => decide (a.url ∉ existing))).map articleRowOf

/-! ## Store merger: comment-store append (`run_comment_collection`, comment_scraper.py lines 114-233) -/

/-- Summarizer output (`summarizer_func`, comment_scraper.py lines
208-217): the dictionary fields read by the source. -/
structure SummaryOut where
  product_neg : Option String
  summaries : List String
  topic_ranking : List String

/-- One comment-collection cycle's environment: the source-sheet data
rows, the comment harvest result per URL (columns and full text,
comment_scraper.py line 203), and the summarizer. -/
structure CCycle where
  source : List (List String)
  fetchCols : String → List String × String
  summarize : String → SummaryOut

/-- Row appended to the comment store for one targeted article
(comment_scraper.py lines 210-226). -/
def buildCRow (r : List String) (cols : List String) (s : SummaryOut) : List String :=
  let prod_neg := s.product_neg.getD "N/A"
  let summary_combined := if s.summaries.isEmpty then "-" else "\n\n".intercalate s.summaries
  let ranking_combined := if s.topic_ranking.isEmpty then "-" else "\n".intercalate s.topic_ranking
  [rowKey r, r.getD 1 "", r.getD 2 "", r.getD 3 "", r.getD 5 "",
    prod_neg, summary_combined, ranking_combined] ++ cols

/-- Stable descending insertion by parsed comment count, the embedding
of `sorted_target_rows.sort(key=..., reverse=True)` (comment_scraper.py
line 158): rows with equal counts keep their original order. -/
def insertByCnt (x : List String) : List (List String) → List (List String)
  | [] => [x]
  | y :: ys =>
    if cntOf (y.getD 5 "") ≤ cntOf (x.getD 5 "") then x :: y :: ys
    else y :: insertByCnt x ys

/-- Stable sort of the candidate rows, most-commented first. -/
def sortByCnt (l : List (List String)) : List (List String) :=
  l.foldr insertByCnt []

/-- Embeds one call of `run_comment_collection` on the two stores
(comment_scraper.py lines 127-233): the existing key set is read once
up front, rows shorter than 11 cells are dropped, candidates are
processed most-commented first, and a row is appended exactly when its
key is not an existing key, it is targeted, and the comment harvest
returned at least one column.  The final date re-sort of the
destination sheet permutes rows only and is not modelled.
`cAppendRow` is the per-candidate body of that loop (comment_scraper.py
lines 164-229): the row appended for one candidate, or nothing. -/
def cAppendRow (c : CCycle) (existing : List String) (r : List String) :
    Option (List String) :=
  if rowKey r ∈ existing then none
  else if isTargetRow r then
    let fc := c.fetchCols (rowKey r)
    if fc.1.isEmpty then none
    else some (buildCRow r fc.1 (c.summarize fc.2))
  else none

def commentCycleFun (dest : List (List String)) (c : CCycle) : List (List String) :=
  let existing := (dest.filter (fun r => !r.isEmpty)).map rowKey
  let targets := sortByCnt (c.source.filter (fun r => decide (11 ≤ r.length)))
  dest ++ targets.filterMap (cAppendRow c existing)

theorem insertByCnt_perm (x : List String) (l : List (List String)) :
    (insertByCnt x l).Perm (x :: l) := by
  induction l with
  | nil => exact List.Perm.refl _
  | cons y ys ih =>
    simp only [insertByCnt]
    split
    · exact List.Perm.refl _
    · exact ((ih.cons y).trans (List.Perm.swap x y ys))

theorem sortByCnt_perm (l : List (List String)) : (sortByCnt l).Perm l := by
  induction l with
  | nil => exact List.Perm.refl _
  | cons x xs ih =>
    simp only [sortByCnt, List.foldr]
    exact (insertByCnt_perm x (List.foldr insertByCnt [] xs)).trans (ih.cons x)

theorem filterMap_keys_sub (f : List String → Option (List String))
    (hf : ∀ r out, f r = some out → rowKey out = rowKey r) (l : List (List String)) :
    ∀ u ∈ (l.filterMap f).map rowKey, u ∈ l.map rowKey := by
  intro u hu
  rcases List.mem_map.mp hu with ⟨out, hout, hkey⟩
  rcases List.mem_filterMap.mp hout with ⟨r, hr, hfr⟩
  exact List.mem_map.mpr ⟨r, hr, (hf r out hfr) ▸ hkey⟩

theorem filterMap_keys_nodup (f : List String → Option (List String))
    (hf : ∀ r out, f r = some out → rowKey out = rowKey r) :
    ∀ l : List (List String), (l.map rowKey).Nodup → ((l.filterMap f).map rowKey).Nodup := by
  intro l
  induction l with
  | nil => intro _; simp
  | cons r rs ih =>
    intro hl
    rw [List.map_cons, List.nodup_cons] at hl
    rw [List.filterMap_cons]
    cases hfr : f r with
    | none => exact ih hl.2
    | some out =>
      rw [List.map_cons, List.nodup_cons]
      refine ⟨fun hmem => hl.1 ?_, ih hl.2⟩
      rw [hf r out hfr] at hmem
      exact filterMap_keys_sub f hf rs _ hmem

theorem writeNewsCycle_nodup (store : List (List String)) (articles : List NewsArticle)
    (h1 : (store.map rowKey).Nodup)
    (h2 : (articles.map NewsArticle.url).Nodup)
    (h3 : ∀ a ∈ articles, sStartsWith a.url "http" = true) :
    ((writeNewsCycle store articles).map rowKey).Nodup := by
  unfold writeNewsCycle
  rw [List.map_append, List.nodup_append]
  refine ⟨h1, ?_, ?_⟩
  · rw [List.map_map]
    have hsub : ((articles.filter (fun a => decide (a.url ∉
        ((store.filter (fun r => !r.isEmpty && sStartsWith (rowKey r) "http")).map rowKey)))).map
          (rowKey ∘ articleRowOf)) =
        ((articles.filter (fun a => decide (a.url ∉
        ((store.filter (fun r => !r.isEmpty && sStartsWith (rowKey r) "http")).map rowKey)))).map
          NewsArticle.url) := by
      apply List.map_congr_left
      intro a _
      rfl
    rw [hsub]
    exact h2.sublist (List.Sublist.map _ (List.filter_sublist _))
  · intro u hu hu2
    rw [List.map_map] at hu2
    rcases List.mem_map.mp hu2 with ⟨a, ha, hkey⟩
    have ha2 := List.mem_filter.mp ha
    have hnot : a.url ∉ ((store.filter
        (fun r => !r.isEmpty && sStartsWith (rowKey r) "http")).map rowKey) := by
      have := ha2.2
      simpa using this
    apply hnot
    rcases List.mem_map.mp hu with ⟨r, hr, hkeyr⟩
    have hkeq : rowKey r = a.url := by
      have : (rowKey ∘ articleRowOf) a = a.url := rfl
      rw [hkeyr, ← hkey, this]
    refine List.mem_map.mpr ⟨r, List.mem_filter.mpr ⟨hr, ?_⟩, hkeq⟩
    have hhttp : sStartsWith (rowKey r) "http" = true := by
      rw [hkeq]; exact h3 a ha2.1
    have hne : r.isEmpty = false := by
      cases r with
      | nil => simp [rowKey, sStartsWith, charsStartWith] at hhttp
      | cons x xs => rfl
    rw [hne, hhttp]
    rfl

theorem cAppendRow_key (c : CCycle) (ex : List String) (r out : List String)
    (h : cAppendRow c ex r = some out) : rowKey out = rowKey r := by
  simp only [cAppendRow] at h
  split at h
  · exact absurd h (by simp)
  · split at h
    · split at h
      · exact absurd h (by simp)
      · injection h with h
        rw [← h]
        rfl
    · exact absurd h (by simp)

theorem cAppendRow_fresh (c : CCycle) (ex : List String) (r out : List String)
    (h : cAppendRow c ex r = some out) : rowKey r ∉ ex := by
  simp only [cAppendRow] at h
  split at h
  · exact absurd h (by simp)
  · next hmem => exact hmem

theorem cAppendRow_ne (c : CCycle) (ex : List String) (r out : List String)
    (h : cAppendRow c ex r = some out) : out ≠ [] := by
  simp only [cAppendRow] at h
  split at h
  · exact absurd h (by simp)
  · split at h
    · split at h
      · exact absurd h (by simp)
      · injection h with h
        rw [← h]
        simp [buildCRow]
    · exact absurd h (by simp)

theorem commentCycleFun_nodup (dest : List (List String)) (c : CCycle)
    (h1 : (dest.map rowKey).Nodup) (h2 : ∀ r ∈ dest, r ≠ [])
    (h3 : (c.source.map rowKey).Nodup) :
    ((commentCycleFun dest c).map rowKey).Nodup ∧
      (∀ r ∈ commentCycleFun dest c, r ≠ []) := by
  unfold commentCycleFun
  have hfilter_eq : (dest.filter (fun r => !r.isEmpty)).map rowKey = dest.map rowKey := by
    congr 1
    apply List.filter_eq_self.mpr
    intro r hr
    have := h2 r hr
    cases r with
    | nil => exact absurd rfl this
    | cons x xs => rfl
  have htargets : ((sortByCnt (c.source.filter (fun r => decide (11 ≤ r.length)))).map
      rowKey).Nodup := by
    refine (((sortByCnt_perm _).map rowKey).symm).nodup ?_
    exact h3.sublist (List.Sublist.map _ (List.filter_sublist _))
  constructor
  · rw [List.map_append, List.nodup_append]
    refine ⟨h1, filterMap_keys_nodup _ (cAppendRow_key c _) _ htargets, ?_⟩
    intro u hu hu2
    rcases List.mem_map.mp hu2 with ⟨out, hout, hkey⟩
    rcases List.mem_filterMap.mp hout with ⟨r, _, hfr⟩
    have hfrsh := cAppendRow_fresh c _ r out hfr
    rw [hfilter_eq] at hfrsh
    apply hfrsh
    rw [cAppendRow_key c _ r out hfr] at hkey
    rw [hkey]
    exact hu
  · intro r hr
    rcases List.mem_append.mp hr with hr | hr
    · exact h2 r hr
    · rcases List.mem_filterMap.mp hr with ⟨s, _, hfs⟩
      exact cAppendRow_ne c _ s r hfs

theorem newsCycles_nodup (cycles : List (List NewsArticle)) :
    ∀ store : List (List String), (store.map rowKey).Nodup →
      (∀ c ∈ cycles, (c.map NewsArticle.url).Nodup ∧
        ∀ a ∈ c, sStartsWith a.url "http" = true) →
      ((cycles.foldl writeNewsCycle store).map rowKey).Nodup := by
  induction cycles with
  | nil => intro store h _; exact h
  | cons c cs ih =>
    intro store h hc
    have hc1 := hc c (List.mem_cons_self c cs)
    exact ih (writeNewsCycle store c)
      (writeNewsCycle_nodup store c h hc1.1 hc1.2)
      (fun d hd => hc d (List.mem_cons_of_mem c hd))

theorem commentCycles_nodup (cycles : List CCycle) :
    ∀ dest : List (List String), (dest.map rowKey).Nodup → (∀ r ∈ dest, r ≠ []) →
      (∀ c ∈ cycles, (c.source.map rowKey).Nodup) →
      ((cycles.foldl commentCycleFun dest).map rowKey).Nodup := by
  induction cycles with
  | nil => intro dest h _ _; exact h
  | cons c cs ih =>
    intro dest h hne hc
    have step := commentCycleFun_nodup dest c h hne (hc c (List.mem_cons_self c cs))
    exact ih (commentCycleFun dest c) step.1 step.2
      (fun d hd => hc d (List.mem_cons_of_mem c hd))

/-- C1 — append-only uniqueness of both stores: over any sequence of
harvest cycles, a harvested record whose URL already occupies a row is
skipped, so neither the article store (`write_news_list_to_source`) nor
the comment store (`run_comment_collection`) ever contains two rows
with the same identity key, given stores that start without duplicate
keys.  Per-cycle inputs are seed *sets*: each cycle's harvested list
and each cycle's source-sheet rows carry pairwise-distinct URLs, and
harvested article URLs start with `http` (guaranteed at main.py lines
370 and 395). -/
theorem C1_append_only_uniqueness
    (store0 dest0 : List (List String))
    (acycles : List (List NewsArticle)) (ccycles : List CCycle)
    (ha0 : (store0.map rowKey).Nodup)
    (hac : ∀ c ∈ acycles, (c.map NewsArticle.url).Nodup ∧
      ∀ a ∈ c, sStartsWith a.url "http" = true)
    (hd0 : (dest0.map rowKey).Nodup) (hd1 : ∀ r ∈ dest0, r ≠ [])
    (hcc : ∀ c ∈ ccycles, (c.source.map rowKey).Nodup) :
    ((acycles.foldl writeNewsCycle store0).map rowKey).Nodup ∧
      ((ccycles.foldl commentCycleFun dest0).map rowKey).Nodup :=
  ⟨newsCycles_nodup acycles store0 ha0 hac,
   commentCycles_nodup ccycles dest0 hd0 hd1 hcc⟩

/-- Witness for C1 at a concrete instance: one article cycle that
re-offers an already-stored URL plus a fresh one, and one comment cycle
over a twelve-cell source row. -/
theorem C1_append_only_uniqueness_witness :
    ((([[⟨"https://news.yahoo.co.jp/articles/a1", "t1", "d1", "s1"⟩,
        ⟨"https://news.yahoo.co.jp/articles/b2", "t2", "d2", "s2"⟩]] :
        List (List NewsArticle)).foldl writeNewsCycle
        [["https://news.yahoo.co.jp/articles/a1", "t0", "d0", "s0"]]).map rowKey).Nodup ∧
    ((([⟨[["https://news.yahoo.co.jp/articles/a1", "t", "d", "s", "x", "200", "ts",
          "日産自動車", "経済", "ネガティブ", "言及", "批判文"]],
        fun _ => (["c1"], "c1"), fun _ => ⟨none, [], []⟩⟩] :
        List CCycle).foldl commentCycleFun []).map rowKey).Nodup :=
  C1_append_only_uniqueness
    [["https://news.yahoo.co.jp/articles/a1", "t0", "d0", "s0"]] []
    [[⟨"https://news.yahoo.co.jp/articles/a1", "t1", "d1", "s1"⟩,
      ⟨"https://news.yahoo.co.jp/articles/b2", "t2", "d2", "s2"⟩]]
    [⟨[["https://news.yahoo.co.jp/articles/a1", "t", "d", "s", "x", "200", "ts",
        "日産自動車", "経済", "ネガティブ", "言及", "批判文"]],
      fun _ => (["c1"], "c1"), fun _ => ⟨none, [], []⟩⟩]
    (by decide) (by decide) (by decide) (by decide) (by decide)

/-- C3 counterexample — the claim requires targeting when the category
merely differs from the excluded category `その他`; the source instead
excludes any category *containing* `その他`: at target company
`日産自動車`, category `金融・その他`, negative-text `なし` and 150
comments, the claim's rule targets the record but the code does not. -/
theorem C3_counterexample :
    is_comment_collection_target "日産自動車" "金融・その他" "なし" (cntOf "150") = false ∧
    claimCommentTargetRule "日産自動車" "金融・その他" "なし" (cntOf "150") = true :=
  ⟨by decide, by decide⟩

/-- C3 (amended) — the per-row decision holds iff (the target-entity
field starts with `日産` AND the category field does not *contain*
`その他` AND the comment count is positive) AND (the count is at least
100 OR the stripped entity-negative-text is non-empty and not a
sentinel); in particular a record with zero comments is never targeted. -/
theorem C3_target_rule (tc cat neg : String) (cnt : Nat) :
    (is_comment_collection_target tc cat neg cnt =
      ((sStartsWith tc "日産" && !(strContains cat "その他") && decide (0 < cnt))
        && (decide (100 ≤ cnt)
          || (sTrim neg != "" && !(negSentinels.contains (sTrim neg)))))) ∧
    (cnt = 0 → is_comment_collection_target tc cat neg cnt = false) := by
  constructor
  · unfold is_comment_collection_target
    by_cases hB : (sStartsWith tc "日産" && !(strContains cat "その他")
        && decide (0 < cnt)) = true
    · rw [if_pos hB, hB, Bool.true_and]
      by_cases h100 : 100 ≤ cnt
      · rw [if_pos h100, decide_eq_true h100, Bool.true_or]
      · rw [if_neg h100, decide_eq_false h100, Bool.false_or]
        cases hval : (sTrim neg != "" && !(negSentinels.contains (sTrim neg))) <;> simp
    · rw [if_neg hB]
      rw [Bool.not_eq_true] at hB
      rw [hB, Bool.false_and]
  · intro h
    subst h
    simp [is_comment_collection_target]

/-- Witness for C3's zero-comment conjunct at concrete inputs. -/
theorem C3_target_rule_witness :
    is_comment_collection_target "日産自動車" "経済" "強い批判" 0 = false :=
  (C3_target_rule "日産自動車" "経済" "強い批判" 0).2 rfl

/-! ## Response sanitization (`analyze_with_gemini_and_update_sheet`, main.py lines 749-765) -/

/-- Hallucinated negative-phrasing keywords (main.py line 758). -/
def hallKeywords : List String :=
  ["not mentioned", "no mention", "発見されませんでした", "言及はありません", "記載されていません"]

/-- True when the value contains one of the hallucination keywords
(main.py line 758, `any(keyword in check_text for keyword in [...])`). -/
def hallucinated (s : String) : Bool :=
  hallKeywords.any (fun k => strContains s k)

/-- One iteration of the sanitization loop body (main.py lines 756-765)
at loop variable `ct`: the keyword guard conditionally replaces either
field equal to `ct` with `なし`, then the `"none"` guard does the same
against the already-updated fields. -/
def sanStep (p : String × String) (ct : String) : String × String :=
  let p1 := if hallucinated ct then
      (if ct = p.1 then "なし" else p.1, if ct = p.2 then "なし" else p.2)
    else p
  if sToLower ct = "none" then
    (if ct = p1.1 then "なし" else p1.1, if ct = p1.2 then "なし" else p1.2)
  else p1

/-- Embeds the whole sanitization loop (main.py lines 756-765): the loop
list `[final_nissan_rel, final_nissan_neg]` is built once from the
incoming values and both iterations mutate the current pair. -/
def sanitizePair (rel neg : String) : String × String :=
  sanStep (sanStep (rel, neg) rel) neg

/-- Restates claim C10's per-field normalization in its own words: a
value containing a hallucinated negative phrasing, or equal
case-insensitively to `none`, becomes the `なし` sentinel; any other
value passes through unchanged. -/
def mentionNormalized (s : String) : String :=
  if hallucinated s || sToLower s = "none" then "なし" else s

/-! ## Enrichment gating (`analyze_with_gemini_and_update_sheet` and
`fetch_details_and_update_sheet`, main.py lines 587-775) -/

/-- Body sentinel for articles whose text was never obtained
(main.py lines 426, 491). -/
def BODY_UNAVAILABLE : String := "本文取得不可"

/-- One data row of the Yahoo sheet in its 11-column layout
(main.py line 46): URL, title, post date, source, body, comment count,
then the five enrichment columns G-K. -/
structure SheetRow where
  url : String
  title : String
  post_date : String
  source : String
  body : String
  comment_count : String
  company : String
  category : String
  sentiment : String
  nissan_rel : String
  nissan_neg : String
deriving DecidableEq

/-- The five enrichment fields `data_row[6:11]` (main.py line 721). -/
def enrichVals (r : SheetRow) : List String :=
  [r.company, r.category, r.sentiment, r.nissan_rel, r.nissan_neg]

/-- Embeds the completeness test `all(str(v).strip() for v in
current_vals)` (main.py line 723). -/
def enrichComplete (r : SheetRow) : Bool :=
  (enrichVals r).all (fun v => sTrim v != "")

/-- Per-row decision of whether `analyze_with_gemini_and_update_sheet`
submits the record's body to the classification service (main.py lines
711-741): a row with all five enrichment fields non-blank is skipped,
then a blank or sentinel body short-circuits to the `N/A` write without
any service call, then a blank URL is skipped; only the remaining rows
are analyzed. -/
def geminiSubmitted (r : SheetRow) : Bool :=
  if enrichComplete r then false
  else if sTrim r.body = "" ∨ r.body = BODY_UNAVAILABLE then false
  else if sTrim r.url = "" then false
  else true

/-- Classification-service response for one article
(`analyze_article_full`, main.py lines 286-292). -/
structure AnalysisOut where
  company_info : String
  category : String
  sentiment : String
  nissan_related : String
  nissan_negative : String

/-- Row transformation performed by one pass of
`analyze_with_gemini_and_update_sheet` over one row (main.py lines
711-773): complete rows are untouched, sentinel-body rows get the five
placeholder values `N/A(No Body)`, `N/A`, ..., blank-URL rows are
untouched, and analyzed rows receive the sanitized analysis fields. -/
def analyzeRowStep (ana : AnalysisOut) (r : SheetRow) : SheetRow :=
  if enrichComplete r then r
  else if sTrim r.body = "" ∨ r.body = BODY_UNAVAILABLE then
    { r with company := "N/A(No Body)", category := "N/A", sentiment := "N/A",
             nissan_rel := "N/A", nissan_neg := "N/A" }
  else if sTrim r.url = "" then r
  else
    { r with company := ana.company_info, category := ana.category,
             sentiment := ana.sentiment,
             nissan_rel := (sanitizePair ana.nissan_related ana.nissan_negative).1,
             nissan_neg := (sanitizePair ana.nissan_related ana.nissan_negative).2 }

/-- Per-row decision of whether `fetch_details_and_update_sheet`
re-fetches the article (main.py lines 605-641): rows without an http
URL are skipped; a row whose body is already fetched is re-visited
(comment-count update) only when its parsed post date lies within the
trailing three-day window, and a row without a fetched body is always
re-fetched.  `post_date_dt` is the result of `parse_post_date` on the
stored date string and `three_days_ago` the midnight-floored cutoff
(main.py lines 602-603, 624); the datetime values are abstracted to a
time-line of integers since string-to-datetime parsing is a library
boundary. -/
def detailFetchDecision (r : SheetRow) (post_date_dt : Option Int)
    (three_days_ago : Int) : Bool :=
  if sTrim r.url = "" ∨ !(sStartsWith r.url "http") then false
  else
    let is_content_fetched := sTrim r.body != "" && r.body != BODY_UNAVAILABLE
    let is_within := match post_date_dt with
      | some d => decide (three_days_ago ≤ d)
      | none => false
    if is_content_fetched && !is_within then false
    else !is_content_fetched || (is_content_fetched && is_within)

/-- Concrete complete recent row used to test claim C2. -/
def c2Row : SheetRow :=
  ⟨"https://news.yahoo.co.jp/articles/a1", "タイトル", "2025/10/10 12:00:00", "ソース",
    "取得済み本文", "120", "日産自動車", "経済", "ネガティブ", "言及あり", "批判あり"⟩

/-- Concrete sentinel-body row and analysis output used to test claim C6. -/
def c6Row : SheetRow :=
  ⟨"https://news.yahoo.co.jp/articles/z9", "タイトル", "2025/10/10 12:00:00", "ソース",
    "本文取得不可", "50", "", "", "", "", ""⟩

/-- Arbitrary classification output for the C6 scenario. -/
def c6Ana : AnalysisOut := ⟨"日産自動車", "経済", "ネガティブ", "言及", "批判"⟩

theorem hall_ne_nashi (s : String) (h : hallucinated s = true) : s ≠ "なし" := by
  intro he
  rw [he] at h
  exact absurd h (by decide)

theorem low_ne_nashi (s : String) (h : sToLower s = "none") : s ≠ "なし" := by
  intro he
  rw [he] at h
  exact absurd h (by decide)

theorem sanStep_self (rel neg : String) :
    sanStep (rel, neg) rel =
      (if (hallucinated rel || decide (sToLower rel = "none")) then "なし" else rel,
       if (hallucinated rel || decide (sToLower rel = "none")) && decide (rel = neg)
         then "なし" else neg) := by
  unfold sanStep
  by_cases h1 : hallucinated rel = true <;>
    by_cases h2 : sToLower rel = "none" <;>
      by_cases h5 : rel = neg <;>
        simp_all

/-- C10 — for the two mention fields, a returned value containing a
hallucinated negative phrasing or equal case-insensitively to `none` is
normalized to the `なし` sentinel, and any other value passes through
the sanitization loop unchanged, independently for each field. -/
theorem C10_mention_sanitization (rel neg : String) :
    sanitizePair rel neg = (mentionNormalized rel, mentionNormalized neg) := by
  unfold sanitizePair mentionNormalized
  rw [sanStep_self]
  unfold sanStep
  by_cases h5 : rel = neg
  · subst h5
    by_cases h1 : hallucinated rel = true <;>
      by_cases h2 : sToLower rel = "none" <;>
        simp_all [hall_ne_nashi, low_ne_nashi]
  · have h5b : ¬neg = rel := fun h => h5 h.symm
    by_cases h1 : hallucinated rel = true <;>
      by_cases h2 : sToLower rel = "none" <;>
        by_cases h3 : hallucinated neg = true <;>
          by_cases h4 : sToLower neg = "none" <;>
            simp_all [hall_ne_nashi, low_ne_nashi]

/-- C2 counterexample — the claim's exception says a record whose post
date falls within the trailing three-day window is re-submitted to the
classification service even if previously marked complete; on a
complete row whose parsed post date (100) lies after the cutoff (0) the
detail step does re-visit the row, but the classification step still
skips it. -/
theorem C2_counterexample :
    enrichComplete c2Row = true ∧
    detailFetchDecision c2Row (some 100) 0 = true ∧
    geminiSubmitted c2Row = false :=
  ⟨by decide, by decide, by decide⟩

/-- C2 (amended) — a record all five of whose enrichment fields are
non-empty is never re-submitted to the classification service,
regardless of its post date; the trailing three-day recency window
instead makes the detail step re-fetch such a record's comment count
and body. -/
theorem C2_enrichment_completeness_gate (r : SheetRow) (d tda : Int)
    (hc : enrichComplete r = true)
    (hurl1 : sTrim r.url ≠ "") (hurl2 : sStartsWith r.url "http" = true)
    (hb1 : sTrim r.body ≠ "") (hb2 : r.body ≠ BODY_UNAVAILABLE)
    (hw : tda ≤ d) :
    geminiSubmitted r = false ∧ detailFetchDecision r (some d) tda = true := by
  constructor
  · simp [geminiSubmitted, hc]
  · simp [detailFetchDecision, hurl1, hurl2, hb1, hb2, hw, bne_iff_ne]

/-- Witness for C2's amended theorem at the concrete complete row. -/
theorem C2_enrichment_completeness_gate_witness :
    geminiSubmitted c2Row = false ∧ detailFetchDecision c2Row (some 100) 0 = true :=
  C2_enrichment_completeness_gate c2Row 100 0 (by decide) (by decide) (by decide)
    (by decide) (by decide) (by decide)

/-- C6 counterexample — the claim says the sentinel-body exclusion lasts
only until a later harvest obtains body text; on a sentinel-body row
with empty enrichment fields, one classification pass writes the five
placeholders, and after the body is replaced by freshly harvested text
the record is still not submitted. -/
theorem C6_counterexample :
    geminiSubmitted c6Row = false ∧
    sTrim "再取得した本文" ≠ "" ∧ ("再取得した本文" : String) ≠ BODY_UNAVAILABLE ∧
    geminiSubmitted { analyzeRowStep c6Ana c6Row with body := "再取得した本文" } = false :=
  ⟨by decide, by decide, by decide, by decide⟩

/-- C6 (amended) — a record whose stored body is the unavailable
sentinel is never submitted to the classification service; if its
enrichment fields are not yet complete, the classification pass fills
all five with placeholders, after which the record stays excluded even
when a later harvest cycle replaces the body with real text. -/
theorem C6_sentinel_body_exclusion (r : SheetRow) (a : AnalysisOut) (b : String)
    (hs : r.body = BODY_UNAVAILABLE) (hnc : enrichComplete r = false) :
    geminiSubmitted r = false ∧
    enrichComplete (analyzeRowStep a r) = true ∧
    geminiSubmitted { analyzeRowStep a r with body := b } = false := by
  have hstep : analyzeRowStep a r =
      { r with company := "N/A(No Body)", category := "N/A", sentiment := "N/A",
               nissan_rel := "N/A", nissan_neg := "N/A" } := by
    simp [analyzeRowStep, hnc, hs]
  have hcomp : enrichComplete (analyzeRowStep a r) = true := by
    rw [hstep]
    simp [enrichComplete, enrichVals]
    decide
  refine ⟨?_, hcomp, ?_⟩
  · simp [geminiSubmitted, hnc, hs]
  · have : enrichComplete { analyzeRowStep a r with body := b } = true := by
      rw [hstep] at hcomp ⊢
      exact hcomp
    simp [geminiSubmitted, this]

/-- Witness for C6's amended theorem at the concrete sentinel row. -/
theorem C6_sentinel_body_exclusion_witness :
    geminiSubmitted c6Row = false ∧
    enrichComplete (analyzeRowStep c6Ana c6Row) = true ∧
    geminiSubmitted { analyzeRowStep c6Ana c6Row with body := "新しい本文" } = false :=
  C6_sentinel_body_exclusion c6Row c6Ana "新しい本文" (by decide) (by decide)

/-! ## Store write retry (`update_sheet_with_retry`, main.py lines 221-240) -/

/-- Outcome of one attempted sheet write: success, a gspread `APIError`
whose text mentions a 5xx code (main.py line 230), any other gspread
`APIError`, or any other exception (main.py line 236). -/
inductive WOutcome where
  | ok : WOutcome
  | api5xx : WOutcome
  | apiOther : WOutcome
  | exc : WOutcome
deriving DecidableEq

/-- How `update_sheet_with_retry` ends: the write landed, an error was
re-raised to the caller, or the update was logged and skipped. -/
inductive WResult where
  | success : WResult
  | raised : WResult
  | skipped : WResult
deriving DecidableEq

/-- Embeds the retry loop of `update_sheet_with_retry` (main.py lines
223-240) over a sequence of per-attempt outcomes, recording the sleep
durations: a 5xx API error waits `30 * (attempt + 1)` seconds and
retries, any other API error is re-raised at once (main.py line 235),
any other exception waits `10 * (attempt + 1)` seconds and retries;
when the loop exhausts its attempts the update is skipped. -/
def retryGo (outcomes : Nat → WOutcome) : Nat → Nat → List Nat → WResult × List Nat
  | 0, _, ws => (.skipped, ws)
  | fuel + 1, attempt, ws =>
    match outcomes attempt with
    | .ok => (.success, ws)
    | .api5xx => retryGo outcomes fuel (attempt + 1) (ws ++ [30 * (attempt + 1)])
    | .apiOther => (.raised, ws)
    | .exc => retryGo outcomes fuel (attempt + 1) (ws ++ [10 * (attempt + 1)])

/-- Embeds `update_sheet_with_retry` with its `max_retries=3` default. -/
def update_sheet_with_retry (outcomes : Nat → WOutcome) : WResult × List Nat :=
  retryGo outcomes 3 0 []

theorem retryGo_no_raise (o : Nat → WOutcome) (fuel : Nat) :
    ∀ (a : Nat) (ws : List Nat), (∀ i, i < a + fuel → o i ≠ WOutcome.apiOther) →
      (retryGo o fuel a ws).1 ≠ WResult.raised := by
  induction fuel with
  | zero => intro a ws _; simp [retryGo]
  | succ fuel ih =>
    intro a ws h
    simp only [retryGo]
    cases ho : o a with
    | ok => simp
    | api5xx => exact ih (a + 1) _ (fun i hi => h i (by omega))
    | apiOther => exact absurd ho (h a (by omega))
    | exc => exact ih (a + 1) _ (fun i hi => h i (by omega))

theorem retryGo_exhaust (o : Nat → WOutcome) (fuel : Nat) :
    ∀ (a : Nat) (ws : List Nat),
      (∀ i, i < a + fuel → o i ≠ WOutcome.ok ∧ o i ≠ WOutcome.apiOther) →
      (retryGo o fuel a ws).1 = WResult.skipped ∧
        (retryGo o fuel a ws).2.length = ws.length + fuel := by
  induction fuel with
  | zero => intro a ws _; simp [retryGo]
  | succ fuel ih =>
    intro a ws h
    simp only [retryGo]
    cases ho : o a with
    | ok => exact absurd ho (h a (by omega)).1
    | api5xx =>
      have := ih (a + 1) (ws ++ [30 * (a + 1)]) (fun i hi => h i (by omega))
      refine ⟨this.1, ?_⟩
      rw [this.2]
      simp
      omega
    | apiOther => exact absurd ho (h a (by omega)).2
    | exc =>
      have := ih (a + 1) (ws ++ [10 * (a + 1)]) (fun i hi => h i (by omega))
      refine ⟨this.1, ?_⟩
      rw [this.2]
      simp
      omega

/-- C7 counterexample — the claim says `update_sheet_with_retry` never
raises an error to its caller; a write whose first attempt fails with a
non-5xx API error (for example a 403) is re-raised immediately. -/
theorem C7_counterexample :
    (update_sheet_with_retry (fun _ => WOutcome.apiOther)).1 = WResult.raised := by
  decide

/-- C7 (amended) — every store field write is retried up to 3 attempts
with linear backoff, a 5xx server error waiting `30 * (attempt + 1)`
seconds against `10 * (attempt + 1)` for other exceptions, and once the
attempts are exhausted the write is logged and skipped, so it never
raises in those cases; an API error that is not a 5xx is however
re-raised to the caller immediately. -/
theorem C7_store_write_retry (o : Nat → WOutcome) (i fuel : Nat) (ws : List Nat) :
    ((∀ k, k < 3 → o k ≠ WOutcome.apiOther) →
      (update_sheet_with_retry o).1 ≠ WResult.raised) ∧
    ((∀ k, k < 3 → o k ≠ WOutcome.ok ∧ o k ≠ WOutcome.apiOther) →
      (update_sheet_with_retry o).1 = WResult.skipped ∧
        (update_sheet_with_retry o).2.length = 3) ∧
    (o i = WOutcome.api5xx →
      retryGo o (fuel + 1) i ws = retryGo o fuel (i + 1) (ws ++ [30 * (i + 1)])) ∧
    (o i = WOutcome.exc →
      retryGo o (fuel + 1) i ws = retryGo o fuel (i + 1) (ws ++ [10 * (i + 1)])) ∧
    10 * (i + 1) < 30 * (i + 1) := by
  refine ⟨fun h => retryGo_no_raise o 3 0 [] (by simpa using h), fun h => ?_, ?_, ?_, by omega⟩
  · have := retryGo_exhaust o 3 0 [] (by simpa using h)
    exact ⟨this.1, by simpa using this.2⟩
  · intro h
    simp [retryGo, h]
  · intro h
    simp [retryGo, h]

/-- Witness for C7's amended theorem: three generic write exceptions end
in a logged skip with three recorded backoff waits, and one 5xx attempt
waits 30 seconds. -/
theorem C7_store_write_retry_witness :
    ((update_sheet_with_retry (fun _ => WOutcome.exc)).1 = WResult.skipped ∧
      (update_sheet_with_retry (fun _ => WOutcome.exc)).2.length = 3) ∧
    retryGo (fun _ => WOutcome.exc) 1 0 [] = retryGo (fun _ => WOutcome.exc) 0 1 [10] :=
  ⟨(C7_store_write_retry (fun _ => WOutcome.exc) 0 0 []).2.1
      (fun k _ => ⟨by decide, by decide⟩),
   by
    have h := (C7_store_write_retry (fun _ => WOutcome.exc) 0 0 []).2.2.2.1 rfl
    simpa using h⟩

/-! ## Page fetch retry (`request_with_retry`, main.py lines 183-197, and
the single-attempt comment-page fetch, comment_scraper.py lines 55-61) -/

/-- Outcome of one HTTP GET for a page: success, a 404 status, or any
transport failure (`requests.exceptions.RequestException`, which also
covers non-404 HTTP errors surfaced by `raise_for_status`). -/
inductive FOutcome where
  | ok : FOutcome
  | notFound : FOutcome
  | transport : FOutcome
deriving DecidableEq

/-- Embeds the attempt loop of `request_with_retry` (main.py lines
184-197) with `max_retries = 3`, recording the backoff sleeps: a 404
returns `None` at once, success returns the response, and a transport
error sleeps `2 ** attempt + random()` (the jitter `j` is the sampled
random value) before the next attempt, or gives up after the last
attempt.  Returns the result, the waits, and the attempt count. -/
def reqGo (o : Nat → FOutcome) (j : Nat → Rat) :
    Nat → Nat → List Rat → Option Unit × List Rat × Nat
  | 0, a, ws => (none, ws, a)
  | fuel + 1, a, ws =>
    match o a with
    | .ok => (some (), ws, a + 1)
    | .notFound => (none, ws, a + 1)
    | .transport =>
      if a + 1 < 3 then reqGo o j fuel (a + 1) (ws ++ [(2 : Rat) ^ a + j a])
      else (none, ws, a + 1)

/-- Embeds `request_with_retry` at its default bound of 3 attempts. -/
def request_with_retry (o : Nat → FOutcome) (j : Nat → Rat) :
    Option Unit × List Rat × Nat :=
  reqGo o j 3 0 []

/-- C8 counterexample — the claim says every page fetch retries
transport errors up to a bounded attempt count; the comment harvester's
page fetch (comment_scraper.py lines 55-61) issues exactly one request
and abandons the whole pagination on the first transport error, while
`request_with_retry` would have made 3 attempts. -/
theorem C8_counterexample :
    commentLoop (fun _ => PageResp.transport) 5 1 [] [] 0 = ([], 1) ∧
    (request_with_retry (fun _ => FOutcome.transport) (fun _ => 0)).2.2 = 3 :=
  ⟨by decide, by decide⟩

/-- C8 (amended) — article page fetches through `request_with_retry`
retry a transport error with the base delay doubling per attempt plus
the sampled jitter, up to 3 attempts, after which the fetch is
abandoned, and return a 404 immediately as the end-of-pagination signal
without any retry; comment page fetches are attempted exactly once,
any failure ending the pagination without retry. -/
theorem C8_page_fetch_retry (o : Nat → FOutcome) (j : Nat → Rat)
    (a fuel cfuel : Nat) (ws : List Rat) :
    (o 0 = FOutcome.notFound → request_with_retry o j = (none, [], 1)) ∧
    (o a = FOutcome.transport → a + 1 < 3 →
      reqGo o j (fuel + 1) a ws = reqGo o j fuel (a + 1) (ws ++ [(2 : Rat) ^ a + j a])) ∧
    (o a = FOutcome.transport → ¬(a + 1 < 3) →
      reqGo o j (fuel + 1) a ws = (none, ws, a + 1)) ∧
    ((∀ i, o i = FOutcome.transport) →
      request_with_retry o j = (none, [(2 : Rat) ^ 0 + j 0, (2 : Rat) ^ 1 + j 1], 3)) ∧
    (commentLoop (fun _ => PageResp.transport) (cfuel + 1) 1 [] [] 0).2 = 1 := by
  refine ⟨fun h => ?_, fun h h2 => ?_, fun h h2 => ?_, fun h => ?_, ?_⟩
  · simp [request_with_retry, reqGo, h]
  · simp [reqGo, h, h2]
  · simp [reqGo, h, h2]
  · simp [request_with_retry, reqGo, h 0, h 1, h 2]
  · simp [commentLoop]

/-- Witness for C8's amended theorem: an immediate 404 at a concrete
input, and the full three-attempt transport trace with zero jitter. -/
theorem C8_page_fetch_retry_witness :
    request_with_retry (fun _ => FOutcome.notFound) (fun _ => 0) = (none, [], 1) ∧
    request_with_retry (fun _ => FOutcome.transport) (fun _ => 0) =
      (none, [(2 : Rat) ^ 0 + 0, (2 : Rat) ^ 1 + 0], 3) :=
  ⟨(C8_page_fetch_retry (fun _ => FOutcome.notFound) (fun _ => 0) 0 0 0 []).1 rfl,
   (C8_page_fetch_retry (fun _ => FOutcome.transport) (fun _ => 0) 0 0 0 []).2.2.2.1
     (fun _ => rfl)⟩

/-! ## Article-body pagination (`fetch_article_body_and_comments`, main.py lines 420-491) -/

/-- Filler phrases excluded from paragraph texts (main.py line 473). -/
def fillerPhrases : List String :=
  ["そう思う", "そう思わない", "学びがある", "わかりやすい", "新しい視点", "私もそう思います"]

/-- One article-page response after HTML parsing: whether the final
response URL still carries the `page=N` parameter (main.py lines
437-440), and the stripped paragraph texts of the content container
(main.py lines 459-471).  `none` stands for `request_with_retry`
returning `None`. -/
structure AResp where
  hasPageParam : Bool
  blocks : List String
deriving DecidableEq

/-- Page separator `f"\n{page_num}ページ目{'ー'*30}\n"` (main.py line 486). -/
def sepOf (n : Nat) : String :=
  "\n" ++ toString n ++ "ページ目" ++ String.mk (List.replicate 30 'ー') ++ "\n"

/-- Suffix of `s` after its first occurrence of `pat`, or `none` when
`pat` does not occur (scanning left to right). -/
def afterFirstOcc : List Char → List Char → Option (List Char)
  | [], _ => none
  | c :: cs, pat =>
    if charsStartWith (c :: cs) pat then some (List.drop pat.length (c :: cs))
    else afterFirstOcc cs pat

/-- Iterated suffix extraction; the fuel is instantiated with the
character count, which bounds the number of occurrences. -/
def splitTailGo : Nat → List Char → List Char → List Char
  | 0, s, _ => s
  | fuel + 1, s, pat =>
    match afterFirstOcc s pat with
    | none => s
    | some rest => splitTailGo fuel rest pat

/-- Embeds `full_body_parts[0].split('ーーーー\n')[-1]` (main.py line
482): the trailing content of a stored part, after the last occurrence
of four `ー` and a newline — which ends the page separator. -/
def trailingOf (s : String) : String :=
  String.mk (splitTailGo s.toList.length s.toList ("ーーーー\n".toList))

/-- Embeds the pagination loop of `fetch_article_body_and_comments`
(main.py lines 431-488) and counts issued page requests: bounded by
`MAX_PAGES = 10`; stops when `request_with_retry` yields nothing, when
a page past 1 redirects away from its `page=N` URL, when a page past 1
yields no body text, and when a page past 1 has a body equal to the
trailing content of the *first* stored part (`full_body_parts[0]`,
main.py lines 481-484); otherwise the separator-prefixed body is
appended and the next page is fetched.  The page-1 comment-count badge
and fallback date extraction (main.py lines 444-457) touch neither the
pagination nor the body parts and are not modelled. -/
def articleGo (resp : Nat → Option AResp) : Nat → Nat → Nat → List String →
    List String × Nat
  | 0, _, req, parts => (parts, req)
  | fuel + 1, page, req, parts =>
    match resp page with
    | none => (parts, req + 1)
    | some r =>
      if page > 1 ∧ !r.hasPageParam then (parts, req + 1)
      else
        if (r.blocks.filter (fun t => t != "" && !(fillerPhrases.contains t))).isEmpty
            ∧ page > 1 then (parts, req + 1)
        else
          if page > 1 ∧ parts ≠ [] ∧
              "\n".intercalate (r.blocks.filter (fun t => t != "" && !(fillerPhrases.contains t)))
                = trailingOf (parts.headD "") then
            (parts, req + 1)
          else articleGo resp fuel (page + 1) (req + 1)
            (parts ++ [sepOf page ++
              "\n".intercalate (r.blocks.filter (fun t => t != "" && !(fillerPhrases.contains t)))])

/-- Embeds the body-harvesting pagination of
`fetch_article_body_and_comments` from page 1 with `MAX_PAGES = 10`. -/
def fetch_article_body_pages (resp : Nat → Option AResp) : List String × Nat :=
  articleGo resp 10 1 0 []

theorem articleGo_bound (resp : Nat → Option AResp) (fuel : Nat) :
    ∀ (page req : Nat) (parts : List String),
      (articleGo resp fuel page req parts).2 ≤ req + fuel := by
  induction fuel with
  | zero => intro page req parts; simp [articleGo]
  | succ fuel ih =>
    intro page req parts
    simp only [articleGo]
    cases resp page with
    | none => show req + 1 ≤ req + (fuel + 1); omega
    | some r =>
      dsimp only
      split
      · show req + 1 ≤ req + (fuel + 1); omega
      · split
        · show req + 1 ≤ req + (fuel + 1); omega
        · split
          · show req + 1 ≤ req + (fuel + 1); omega
          · refine le_trans (ih (page + 1) (req + 1) _) ?_
            omega

/-- Responses for the C9 counterexample: page 1 yields body `P1`, pages
2 and 3 both yield the byte-identical body `B`, and every later page
yields a fresh distinct body. -/
def c9Resp : Nat → Option AResp := fun p =>
  if p = 2 then some ⟨true, ["B"]⟩
  else if p = 3 then some ⟨true, ["B"]⟩
  else some ⟨true, ["P" ++ toString p]⟩

/-- C9 counterexample — the claim says pagination stops when consecutive
pages produce byte-identical trailing body content; here pages 2 and 3
return byte-identical bodies, yet the harvester keeps going and issues
all 10 page requests, because the source compares each page against the
*first* stored part, not the previous one. -/
theorem C9_counterexample :
    c9Resp 2 = c9Resp 3 ∧ (fetch_article_body_pages c9Resp).2 = 10 :=
  ⟨by decide, by decide⟩

/-- C9 (amended) — article-body harvesting fetches at most 10 pages,
stops early when a page after page 1 yields no body text, and stops
early when a later page's body is byte-identical to the trailing
content of the first stored page part (a guard against the site serving
page 1's content repeatedly), rather than comparing consecutive pages. -/
theorem C9_article_pagination (resp : Nat → Option AResp) (r : AResp)
    (fuel page req : Nat) (parts : List String) :
    (fetch_article_body_pages resp).2 ≤ 10 ∧
    (page > 1 → resp page = some r →
      (r.blocks.filter (fun t => t != "" && !(fillerPhrases.contains t))).isEmpty = true →
      articleGo resp (fuel + 1) page req parts = (parts, req + 1)) ∧
    (page > 1 → parts ≠ [] → resp page = some r → r.hasPageParam = true →
      "\n".intercalate (r.blocks.filter (fun t => t != "" && !(fillerPhrases.contains t))) =
        trailingOf (parts.headD "") →
      articleGo resp (fuel + 1) page req parts = (parts, req + 1)) := by
  refine ⟨articleGo_bound resp 10 1 0 [], fun hp hr hb => ?_, fun hp hne hr hparam hbody => ?_⟩
  · simp only [articleGo, hr]
    split
    · rfl
    · rw [if_pos ⟨hb, hp⟩]
  · simp only [articleGo, hr, hparam]
    rw [if_neg (by simp [hp])]
    split
    · rfl
    · rw [if_pos ⟨hp, hne, hbody⟩]

/-- Witness for C9's amended theorem: the bound at the counterexample
responses, an empty page 5 stopping the loop, and a page-2 body equal
to page 1's trailing content stopping the loop. -/
theorem C9_article_pagination_witness :
    (fetch_article_body_pages c9Resp).2 ≤ 10 ∧
    articleGo (fun _ => some ⟨true, []⟩) 1 5 7 ["x"] = (["x"], 8) ∧
    articleGo (fun _ => some ⟨true, ["P1"]⟩) 1 2 1 [sepOf 1 ++ "P1"] =
      ([sepOf 1 ++ "P1"], 2) :=
  ⟨(C9_article_pagination c9Resp ⟨true, []⟩ 0 1 0 []).1,
   (C9_article_pagination (fun _ => some ⟨true, []⟩) ⟨true, []⟩ 0 5 7 ["x"]).2.1
     (by decide) rfl (by decide),
   (C9_article_pagination (fun _ => some ⟨true, ["P1"]⟩) ⟨true, ["P1"]⟩ 0 2 1
       [sepOf 1 ++ "P1"]).2.2
     (by decide) (by decide) rfl rfl (by decide)⟩

end YahooNissan
